import Mathlib

/-!
Shallow embedding of the high-precision Southwest check-in actor
(`src/main.js`, first document: the variant with NTP sync, RTT correction,
drift monitoring and the in-browser scheduled click).

Time values are integer milliseconds (`Int`), matching JavaScript
`Date.now()`/`getTime()`.  The single place where JavaScript produces a
fractional number — `rtt / 2` on line 112 — is modelled in `ℚ`, so the
`time` field of a Southwest sync sample is a rational.  I/O outcomes
(network fetches, the NTP query, the clock reads of each loop iteration)
are supplied by explicit environment values; every function of the source
becomes a total Lean function of its environment.
-/

namespace SWActor

/-! ### ClockSynchronizer: `getNTPTime` (main.js lines 73-92) -/

/-- Return value of `getNTPTime`: `{ ntpTime, localDriftMs }` together with
the `result.telemetry.ntpSyncSucceeded` flag the function sets. -/
structure NTPResult where
  ntpTime : Int
  localDriftMs : Int
  succeeded : Bool
deriving Repr, DecidableEq

/-- Outcome of the single NTP network query inside `getNTPTime`:
either the server answered (`ok ntpMs localNowMs`, where `localNowMs` is the
`Date.now()` read on line 82) or the query failed (`err localNowMs`, where
`localNowMs` is the `Date.now()` read on line 90). -/
inductive NTPEnv where
  | ok (ntpMs localNowMs : Int)
  | err (localNowMs : Int)
deriving Repr, DecidableEq

/-- Lines 73-92.  On success: drift = `ntpTime.getTime() - Date.now()`.
On failure the `catch` branch returns `{ ntpTime: Date.now(), localDriftMs: 0 }`
and marks `ntpSyncSucceeded = false`.  The function is total: it never
propagates the failure to its caller. -/
def getNTPTime : NTPEnv → NTPResult
  | .ok ntpMs localNowMs =>
      { ntpTime := ntpMs, localDriftMs := ntpMs - localNowMs, succeeded := true }
  | .err localNowMs =>
      { ntpTime := localNowMs, localDriftMs := 0, succeeded := false }

/-! ### `getSouthwestTimeWithRTT` (main.js lines 95-131) -/

/-- Return value of `getSouthwestTimeWithRTT`: `{ time, rtt, method }`.
`time` is rational because of the `rtt / 2` correction on line 112. -/
structure SWSyncResult where
  time : ℚ
  rtt : Option Int
  method : String
deriving Repr, DecidableEq

/-- Outcome of the HEAD request to southwest.com inside
`getSouthwestTimeWithRTT`:
`ok startMs endMs headerMs` — request succeeded with a `date` header
(`startMs`/`endMs` are the `Date.now()` reads on lines 100/105, `headerMs`
the parsed header value); `noHeader` — request succeeded but the response
had no `date` header (control falls through to line 129); `fail` — the
request threw or timed out (the `catch` on line 120 runs, then line 129).
`fallbackNowMs` is the `Date.now()` read on line 129. -/
inductive SWEnv where
  | ok (startMs endMs headerMs : Int)
  | noHeader (startMs endMs fallbackNowMs : Int)
  | fail (fallbackNowMs : Int)
deriving Repr, DecidableEq

/-- Lines 95-131.  With a `date` header: `rtt = end - start`,
`time = headerMs + rtt/2 + localDriftMs`, method `southwest+ntp`.
Otherwise (missing header, error or timeout): the NTP-corrected local time
`Date.now() + localDriftMs`, `rtt = null`, method `ntp-only`.  Total:
never propagates a failure. -/
def getSouthwestTimeWithRTT (localDriftMs : Int) : SWEnv → SWSyncResult
  | .ok startMs endMs headerMs =>
      let rtt := endMs - startMs
      { time := (headerMs : ℚ) + (rtt : ℚ) / 2 + (localDriftMs : ℚ),
        rtt := some rtt, method := "southwest+ntp" }
  | .noHeader _ _ fallbackNowMs =>
      { time := ((fallbackNowMs + localDriftMs : Int) : ℚ), rtt := none, method := "ntp-only" }
  | .fail fallbackNowMs =>
      { time := ((fallbackNowMs + localDriftMs : Int) : ℚ), rtt := none, method := "ntp-only" }

/-! ### Run configuration (main.js lines 32-43, 373) -/

/-- Line 42: `backupOffset = isBackup ? 1000 : 0`. -/
def backupOffset (isBackup : Bool) : Int := if isBackup then 1000 else 0

/-- The inputs of one run that the scheduler reads: `checkinOpensAtMs`
(line 38) and the role flag `IS_BACKUP` (line 41). -/
structure RunConfig where
  checkinOpensAtMs : Int
  isBackup : Bool
deriving Repr, DecidableEq

/-- Line 373: `targetSubmitTime = checkinOpensAtMs + 100 + backupOffset`. -/
def targetSubmitTime (cfg : RunConfig) : Int :=
  cfg.checkinOpensAtMs + 100 + backupOffset cfg.isBackup

/-! ### Wait-loop poll intervals (main.js lines 314-329) -/

/-- The poll interval chosen for a positive `msUntilSubmit`:
lines 314-329 — `≤ 5000` → 100 ms, `≤ 60000` → 1000 ms, else 5000 ms. -/
def pollIntervalMs (msUntilSubmit : Int) : Int :=
  if msUntilSubmit ≤ 5000 then 100
  else if msUntilSubmit ≤ 60000 then 1000
  else 5000

/-! ### The PHASE 2 wait loop (main.js lines 252-330) -/

/-- One entry of `result.telemetry.driftChecks` (lines 278-282). -/
structure DriftCheck where
  drift : ℚ
  rtt : Option Int
deriving Repr, DecidableEq

/-- The mutable bindings of the wait loop: `lastSyncTime` (line 245),
`lastDriftCheck`/`lastNTPSync`/`lastHeartbeat` (lines 252-254),
the closed-over `localDriftMs` (line 134) and the accumulated
`driftChecks` telemetry. -/
structure LoopState where
  lastSyncTime : SWSyncResult
  lastDriftCheck : Int
  lastNTPSync : Int
  lastHeartbeat : Int
  localDriftMs : Int
  driftChecks : List DriftCheck
deriving Repr, DecidableEq

/-- The clock reads and network outcomes of one loop iteration:
`nowHb` — `Date.now()` on line 258; `nowHbEnd` — line 269;
`nowDrift` — line 273; `sw` — the Southwest probe outcome if the 15 s
block fires (line 275); `nowDriftEnd` — line 289; `nowNTP` — line 293;
`nowCompute` — line 302. -/
structure IterEnv where
  nowHb : Int
  nowHbEnd : Int
  nowDrift : Int
  sw : SWEnv
  nowDriftEnd : Int
  nowNTP : Int
  nowCompute : Int
deriving Repr, DecidableEq

/-- Heartbeat block, lines 257-270: if two minutes passed the code logs and
stores a heartbeat record (pure I/O) and resets `lastHeartbeat`; the only
state effect is `lastHeartbeat`. -/
def heartbeatStep (s : LoopState) (env : IterEnv) : LoopState :=
  if env.nowHb - s.lastHeartbeat ≥ 120000 then
    { s with lastHeartbeat := env.nowHbEnd }
  else s

/-- Drift-monitor block, lines 272-290: every 15 s a new Southwest sync is
taken, the drift relative to the previous sample is appended to
`result.telemetry.driftChecks`, and `lastSyncTime`/`lastDriftCheck` are
replaced.  Note that `localDriftMs` is NOT touched here. -/
def driftStep (s : LoopState) (env : IterEnv) : LoopState :=
  let timeSinceLastCheck := env.nowDrift - s.lastDriftCheck
  if timeSinceLastCheck ≥ 15000 then
    let newSync := getSouthwestTimeWithRTT s.localDriftMs env.sw
    let drift := newSync.time - s.lastSyncTime.time - (timeSinceLastCheck : ℚ)
    { s with lastSyncTime := newSync,
             lastDriftCheck := env.nowDriftEnd,
             driftChecks := s.driftChecks ++ [{ drift := drift, rtt := newSync.rtt }] }
  else s

/-- Result of one iteration of the `while (true)` loop:
`keepWaiting s msUntilSubmit pollMs` — the iteration fell through to one of
the `waitForTimeout` branches (lines 314-329);
`armed s msUntilSubmit` — the `break` on line 311 fired;
`jsError msg` — the iteration threw. -/
inductive IterOutcome where
  | keepWaiting (s : LoopState) (msUntilSubmit pollMs : Int)
  | armed (s : LoopState) (msUntilSubmit : Int)
  | jsError (message : String)
deriving Repr, DecidableEq

/-- Extract the `msUntilSubmit` the iteration computed on line 307,
when it computed one. -/
def IterOutcome.remainingMs : IterOutcome → Option Int
  | .keepWaiting _ m _ => some m
  | .armed _ m => some m
  | .jsError _ => none

/-- Whether the iteration left the waiting states through the `break`. -/
def IterOutcome.isArmed : IterOutcome → Bool
  | .armed _ _ => true
  | _ => false

/-- One iteration of the wait loop, lines 256-330.  Heartbeat block, then
drift-monitor block, then the 10-minute NTP block, then the remaining-time
computation (lines 302-307) and the branch on it.

The 10-minute NTP block (lines 292-300) calls `getNTPTime()` and then
executes `localDriftMs = ntpResync.localDriftMs` (line 297).  But
`localDriftMs` is a `const` binding (line 134:
`const { ntpTime, localDriftMs } = await getNTPTime();`) and the file is an
ES module, hence strict-mode code, so that assignment throws
`TypeError: Assignment to constant variable.` — the iteration aborts with
an exception instead of updating the offset. -/
def loopIter (cfg : RunConfig) (s0 : LoopState) (env : IterEnv) : IterOutcome :=
  let s := driftStep (heartbeatStep s0 env) env
  if env.nowNTP - s.lastNTPSync ≥ 600000 then
    .jsError "TypeError: Assignment to constant variable."
  else
    let currentTime := env.nowCompute + s.localDriftMs
    let msUntilSubmit := cfg.checkinOpensAtMs + 100 + backupOffset cfg.isBackup - currentTime
    if msUntilSubmit ≤ 0 then .armed s msUntilSubmit
    else .keepWaiting s msUntilSubmit (pollIntervalMs msUntilSubmit)

/-- Result of running the whole wait loop over a finite trace of iteration
environments: `armed` — the `break` fired; `jsError` — an iteration threw;
`exhausted` — the supplied trace ended before either. -/
inductive RunOutcome where
  | armed (s : LoopState) (msUntilSubmit : Int)
  | jsError (message : String)
  | exhausted (s : LoopState)
deriving Repr, DecidableEq

/-- The `while (true)` loop of lines 256-330 driven by a trace of
iteration environments. -/
def runLoop (cfg : RunConfig) : LoopState → List IterEnv → RunOutcome
  | s, [] => .exhausted s
  | s, env :: rest =>
    match loopIter cfg s env with
    | .keepWaiting s' _ _ => runLoop cfg s' rest
    | .armed s' m => .armed s' m
    | .jsError msg => .jsError msg

/-- Run a prefix of the loop that is required to keep waiting at every
step; `none` if some step armed or threw instead. -/
def runKeepWaiting (cfg : RunConfig) : LoopState → List IterEnv → Option LoopState
  | s, [] => some s
  | s, env :: rest =>
    match loopIter cfg s env with
    | .keepWaiting s' _ _ => runKeepWaiting cfg s' rest
    | _ => none

/-! ### PHASE 3: pre-submit calibration and dispatch (main.js lines 341-415) -/

/-- Outcome of one calibration HEAD request (lines 345-348): on success the
sample pushed is `end - start`; a thrown fetch error propagates out of the
`for` loop (there is no `try`/`catch` and no timeout around these fetches). -/
inductive FetchOutcome where
  | ok (rttMs : Int)
  | fail (message : String)
deriving Repr, DecidableEq

/-- The values PHASE 3 computes from the calibration (lines 343-360):
the raw samples, `medianRTT = sortedRTT[Math.floor(sortedRTT.length / 2)]`
and `adaptiveOffset = Math.floor(medianRTT / 2)`. -/
structure CalibrationResult where
  rttSamples : List Int
  medianRTT : Int
  adaptiveOffset : Int
deriving Repr, DecidableEq

/-- The median selection of lines 352-353 applied to three sample values
`x`, `y`, `z`: sort ascending (the JS comparator `(a, b) => a - b` sorts by
the usual integer order) and take index `Math.floor(3 / 2) = 1`. -/
def median3 (x y z : Int) : Int :=
  (List.insertionSort (· ≤ ·) [x, y, z]).getD 1 0

/-- Lines 343-360.  The `for` loop issues exactly three fetches in order;
the first failure aborts the whole phase (the exception travels to the
handler-level `catch`).  When all three succeed the median and the adaptive
offset are computed.  The `getD` default is never reached: the sorted list
always has length 3. -/
def calibrateRTT (o0 o1 o2 : FetchOutcome) : Except String CalibrationResult :=
  match o0 with
  | .fail m => .error m
  | .ok r0 =>
    match o1 with
    | .fail m => .error m
    | .ok r1 =>
      match o2 with
      | .fail m => .error m
      | .ok r2 =>
        let rttSamples := [r0, r1, r2]
        let sortedRTT := List.insertionSort (· ≤ ·) rttSamples
        let medianRTT := sortedRTT.getD (rttSamples.length / 2) 0
        .ok { rttSamples := rttSamples, medianRTT := medianRTT,
              adaptiveOffset := Int.fdiv medianRTT 2 }

/-- What PHASE 3 hands to the click scheduler (lines 373-382):
`targetSubmitTime = checkinOpensAtMs + 100 + backupOffset` (line 373) and
`delayMs = Math.max(0, targetSubmitTime - (Date.now() + localDriftMs))`
(lines 379-380), next to the calibration stored in telemetry. -/
structure DispatchComputation where
  targetSubmitTime : Int
  delayMs : Int
  calibration : CalibrationResult
deriving Repr, DecidableEq

/-- Lines 341-382: run the calibration, then compute the target submit time
and the dispatch delay.  `nowMs` is the `Date.now()` read on line 379.
Note that `adaptiveOffset` is stored (lines 364-369) but never added to
`targetSubmitTime` or `delayMs`. -/
def phase3Dispatch (cfg : RunConfig) (nowMs localDriftMs : Int)
    (o0 o1 o2 : FetchOutcome) : Except String DispatchComputation :=
  match calibrateRTT o0 o1 o2 with
  | .error m => .error m
  | .ok calib =>
    let target := targetSubmitTime cfg
    let currentTime := nowMs + localDriftMs
    let delayMs := max 0 (target - currentTime)
    .ok { targetSubmitTime := target, delayMs := delayMs, calibration := calib }

/-- The value the in-browser promise of lines 393-415 resolves with:
`{ error: 'Button not found' }` when the query selector matches nothing,
otherwise `{ clicked: true, delay }` (with `delay = 0` on the immediate
path of lines 403-406). -/
inductive ClickOutcome where
  | buttonNotFound
  | clicked (delay : Int)
deriving Repr, DecidableEq

/-- Lines 393-415, the `page.evaluate` body: if the button is missing the
promise resolves with the error object; otherwise the click is performed
immediately (`delay ≤ 0`) or after `setTimeout(delay)`. -/
def scheduleClick (buttonPresent : Bool) (delay : Int) : ClickOutcome :=
  if buttonPresent then
    if delay ≤ 0 then .clicked 0 else .clicked delay
  else .buttonNotFound

/-! ### PHASE 4: micro-retry loop (main.js lines 428-453) -/

/-- Line 429: `const maxRetries = 5`. -/
def maxRetries : Nat := 5

/-- What the retry loop of lines 431-451 did: the final `retryCount`
(stored into `result.telemetry.retryCount` on line 453), the number of
re-dispatch clicks performed (line 441-444), the total milliseconds spent
in `waitForTimeout` calls inside the loop, and whether the loop left
through the `break` on line 449 (no rejection marker in the page). -/
structure RetryOutcome where
  retryCount : Nat
  clicks : Nat
  elapsedMs : Nat
  accepted : Bool
deriving Repr, DecidableEq

/-- The body of `while (retryCount < maxRetries)`, lines 431-451, with
`fuel = maxRetries - retryCount` encoding the loop condition (each
iteration that continues increments `retryCount` by exactly one).
`rejected k` says whether the `k`-th `page.content()` read contains
`'too early'` or `'Come back'`.  Each iteration waits 150 ms (line 432),
reads the content, and on rejection clicks again and waits another 100 ms
(line 446); on a non-rejected read it breaks at once. -/
def microRetryGo (rejected : Nat → Bool) :
    Nat → Nat → Nat → Nat → Nat → RetryOutcome
  | 0, retryCount, clicks, _, elapsed =>
      { retryCount := retryCount, clicks := clicks, elapsedMs := elapsed, accepted := false }
  | fuel + 1, retryCount, clicks, readIdx, elapsed =>
      if rejected readIdx then
        microRetryGo rejected fuel (retryCount + 1) (clicks + 1) (readIdx + 1)
          (elapsed + 150 + 100)
      else
        { retryCount := retryCount, clicks := clicks, elapsedMs := elapsed + 150,
          accepted := true }

/-- The whole PHASE 4 loop starting from `retryCount = 0` (line 428). -/
def microRetry (rejected : Nat → Bool) : RetryOutcome :=
  microRetryGo rejected maxRetries 0 0 0 0

/-- The fixed per-retry cycle of the loop: the 150 ms poll wait of line 432
plus the 100 ms post-click wait of line 446. -/
def retryIntervalMs : Nat := 150 + 100

/-! ### PHASE 5 result assembly and the handler-level catch
(main.js lines 53-61, 200-202, 492-507, 520-531) -/

/-- The fields of the `result` object that the claims inspect. -/
structure FinalResult where
  success : Bool
  boardingPosition : Option String
  error : Option String
deriving Repr, DecidableEq

/-- Lines 492-507: a parsed boarding position gives success; otherwise a
`too early` page gives a failure with an error, and an unparseable page a
soft success with position `UNKNOWN`. -/
def finalizeResult (boardingPosition : Option String) (pageSaysTooEarly : Bool) :
    FinalResult :=
  match boardingPosition with
  | some p => { success := true, boardingPosition := some p, error := none }
  | none =>
    if pageSaysTooEarly then
      { success := false, boardingPosition := none,
        error := some "Check-in not yet open (too early)" }
    else
      { success := true, boardingPosition := some "UNKNOWN",
        error := some "Could not parse boarding position from page" }

/-- Lines 197-202: the position-based form fill requires at least three
visible inputs and throws otherwise. -/
def formFillInputsCheck (numInputs : Nat) : Except String Unit :=
  if numInputs < 3 then .error ("Expected 3 inputs, found " ++ toString numInputs)
  else .ok ()

/-- The run through form fill, the scheduled click and the final parse, as
the `requestHandler` composes them.  A throw during form fill is caught on
line 520: `result.error = error.message` with `result.success` still at its
initial `false` (line 54).  The resolved value of the in-browser click
promise (lines 393-415) is awaited and then DISCARDED — nothing on the Node
side reads it — so control always proceeds to phases 4-5 and the final
result is decided by `finalizeResult` alone. -/
def runWithDispatchStage (numInputs : Nat) (buttonPresent : Bool) (delay : Int)
    (boardingPosition : Option String) (pageSaysTooEarly : Bool) : FinalResult :=
  match formFillInputsCheck numInputs with
  | .error m => { success := false, boardingPosition := none, error := some m }
  | .ok () =>
    let _clickOutcome := scheduleClick buttonPresent delay
    finalizeResult boardingPosition pageSaysTooEarly

/-- The remaining-time value of line 307, as a function of the pre-iteration
state: `(checkinOpensAtMs + 100 + backupOffset) - (Date.now() + localDriftMs)`. -/
def remainingAt (cfg : RunConfig) (s : LoopState) (env : IterEnv) : Int :=
  cfg.checkinOpensAtMs + 100 + backupOffset cfg.isBackup - (env.nowCompute + s.localDriftMs)

/-! ### Concrete instances used by counterexamples and witnesses -/

/-- A primary-role run whose check-in opens at local time 100000. -/
def probeCfg : RunConfig := { checkinOpensAtMs := 100000, isBackup := false }

/-- A loop state at local time 50000 whose last drift check is 15 s old,
with NTP offset `localDriftMs = 0`. -/
def probeState : LoopState :=
  { lastSyncTime := { time := 50000, rtt := none, method := "ntp-only" },
    lastDriftCheck := 35000, lastNTPSync := 50000, lastHeartbeat := 50000,
    localDriftMs := 0, driftChecks := [] }

/-- An iteration at local time 50000 in which the 15 s drift probe fires and
the Southwest sample reports header time 50500 with rtt 0 — a sample whose
implied clock offset is +500 ms against the local clock. -/
def probeEnv : IterEnv :=
  { nowHb := 50000, nowHbEnd := 50000, nowDrift := 50000,
    sw := .ok 50000 50000 50500, nowDriftEnd := 50000, nowNTP := 50000,
    nowCompute := 50000 }

/-- A loop state at local time 2000 with offset 0 (fresh sync stamps). -/
def armState : LoopState :=
  { lastSyncTime := { time := 0, rtt := none, method := "ntp-only" },
    lastDriftCheck := 2000, lastNTPSync := 2000, lastHeartbeat := 2000,
    localDriftMs := 0, driftChecks := [] }

/-- An iteration at local time 2000 (all clock reads at 2000, probe idle). -/
def armEnv : IterEnv :=
  { nowHb := 2000, nowHbEnd := 2000, nowDrift := 2000, sw := .fail 2000,
    nowDriftEnd := 2000, nowNTP := 2000, nowCompute := 2000 }

/-- A loop state whose last NTP sync happened at local time 0. -/
def longWaitState : LoopState :=
  { lastSyncTime := { time := 0, rtt := none, method := "ntp-only" },
    lastDriftCheck := 595000, lastNTPSync := 0, lastHeartbeat := 595000,
    localDriftMs := 0, driftChecks := [] }

/-- An iteration ten minutes after the last NTP sync. -/
def longWaitEnv : IterEnv :=
  { nowHb := 600000, nowHbEnd := 600000, nowDrift := 600000,
    sw := .fail 600000, nowDriftEnd := 600000, nowNTP := 600000,
    nowCompute := 600000 }

/-! ### Helper lemmas about the wait loop -/

lemma heartbeatStep_lastNTPSync (s : LoopState) (env : IterEnv) :
    (heartbeatStep s env).lastNTPSync = s.lastNTPSync := by
  unfold heartbeatStep; split <;> rfl

lemma heartbeatStep_localDriftMs (s : LoopState) (env : IterEnv) :
    (heartbeatStep s env).localDriftMs = s.localDriftMs := by
  unfold heartbeatStep; split <;> rfl

lemma driftStep_lastNTPSync (s : LoopState) (env : IterEnv) :
    (driftStep s env).lastNTPSync = s.lastNTPSync := by
  unfold driftStep; dsimp only; split <;> rfl

lemma driftStep_localDriftMs (s : LoopState) (env : IterEnv) :
    (driftStep s env).localDriftMs = s.localDriftMs := by
  unfold driftStep; dsimp only; split <;> rfl

lemma loopIter_of_noNTPBlock (cfg : RunConfig) (s : LoopState) (env : IterEnv)
    (h : env.nowNTP - s.lastNTPSync < 600000) :
    loopIter cfg s env =
      if remainingAt cfg s env ≤ 0 then
        .armed (driftStep (heartbeatStep s env) env) (remainingAt cfg s env)
      else
        .keepWaiting (driftStep (heartbeatStep s env) env) (remainingAt cfg s env)
          (pollIntervalMs (remainingAt cfg s env)) := by
  unfold loopIter
  dsimp only
  rw [driftStep_lastNTPSync, heartbeatStep_lastNTPSync,
    driftStep_localDriftMs, heartbeatStep_localDriftMs]
  rw [if_neg (by omega)]
  rfl

lemma loopIter_of_NTPBlock (cfg : RunConfig) (s : LoopState) (env : IterEnv)
    (h : 600000 ≤ env.nowNTP - s.lastNTPSync) :
    loopIter cfg s env = .jsError "TypeError: Assignment to constant variable." := by
  unfold loopIter
  dsimp only
  rw [driftStep_lastNTPSync, heartbeatStep_lastNTPSync, if_pos (by omega)]

lemma loopIter_keepWaiting_remaining (cfg : RunConfig) (s : LoopState) (env : IterEnv)
    (s' : LoopState) (m p : Int) (h : loopIter cfg s env = .keepWaiting s' m p) :
    m = remainingAt cfg s env ∧ 0 < m ∧ p = pollIntervalMs m ∧
      s' = driftStep (heartbeatStep s env) env := by
  unfold loopIter at h
  dsimp only at h
  split at h
  · exact absurd h (by simp)
  · split at h
    · exact absurd h (by simp)
    · rename_i h0 h1
      injection h with e1 e2 e3
      refine ⟨?_, ?_, ?_, e1.symm⟩
      · rw [← e2]
        simp only [remainingAt, driftStep_localDriftMs, heartbeatStep_localDriftMs]
      · rw [driftStep_localDriftMs, heartbeatStep_localDriftMs] at h1
        rw [← e2]
        simp only [driftStep_localDriftMs, heartbeatStep_localDriftMs]
        omega
      · rw [← e3, ← e2]

lemma loopIter_armed_remaining (cfg : RunConfig) (s : LoopState) (env : IterEnv)
    (s' : LoopState) (m : Int) (h : loopIter cfg s env = .armed s' m) :
    m = remainingAt cfg s env ∧ m ≤ 0 ∧ s' = driftStep (heartbeatStep s env) env := by
  unfold loopIter at h
  dsimp only at h
  split at h
  · exact absurd h (by simp)
  · split at h
    · rename_i h0 h1
      injection h with e1 e2
      refine ⟨?_, ?_, e1.symm⟩
      · rw [← e2]
        simp only [remainingAt, driftStep_localDriftMs, heartbeatStep_localDriftMs]
      · rw [driftStep_localDriftMs, heartbeatStep_localDriftMs] at h1
        rw [← e2]
        simp only [driftStep_localDriftMs, heartbeatStep_localDriftMs]
        omega
    · exact absurd h (by simp)

lemma runLoop_armed_split (cfg : RunConfig) :
    ∀ (envs : List IterEnv) (s s' : LoopState) (m : Int),
      runLoop cfg s envs = .armed s' m →
      ∃ pre env post t, envs = pre ++ env :: post ∧
        runKeepWaiting cfg s pre = some t ∧ loopIter cfg t env = .armed s' m := by
  intro envs
  induction envs with
  | nil => intro s s' m h; simp [runLoop] at h
  | cons e rest ih =>
    intro s s' m h
    rw [runLoop] at h
    cases hi : loopIter cfg s e with
    | keepWaiting s1 r p =>
      rw [hi] at h
      obtain ⟨pre, env, post, t, h1, h2, h3⟩ := ih s1 s' m h
      exact ⟨e :: pre, env, post, t, by rw [h1]; rfl,
        by rw [runKeepWaiting, hi]; exact h2, h3⟩
    | armed s1 r =>
      rw [hi] at h
      injection h with e1 e2
      exact ⟨[], e, rest, s, rfl, rfl, by rw [hi, e1, e2]⟩
    | jsError msg =>
      rw [hi] at h
      exact absurd h (by simp)

/-! ### Helper lemmas about the micro-retry loop -/

lemma microRetryGo_retryCount_le (rejected : Nat → Bool) :
    ∀ fuel rc ck ri el,
      (microRetryGo rejected fuel rc ck ri el).retryCount ≤ rc + fuel := by
  intro fuel
  induction fuel with
  | zero => intro rc ck ri el; simp [microRetryGo]
  | succ n ih =>
    intro rc ck ri el
    rw [microRetryGo]
    split
    · have := ih (rc + 1) (ck + 1) (ri + 1) (el + 150 + 100)
      omega
    · simp

lemma microRetryGo_clicks_retryCount (rejected : Nat → Bool) :
    ∀ fuel rc ck ri el,
      (microRetryGo rejected fuel rc ck ri el).clicks + rc =
        (microRetryGo rejected fuel rc ck ri el).retryCount + ck := by
  intro fuel
  induction fuel with
  | zero => intro rc ck ri el; simp [microRetryGo]; omega
  | succ n ih =>
    intro rc ck ri el
    rw [microRetryGo]
    split
    · have := ih (rc + 1) (ck + 1) (ri + 1) (el + 150 + 100)
      omega
    · simp; omega

lemma microRetryGo_elapsed_le (rejected : Nat → Bool) :
    ∀ fuel rc ck ri el,
      (microRetryGo rejected fuel rc ck ri el).elapsedMs ≤ el + fuel * 250 := by
  intro fuel
  induction fuel with
  | zero => intro rc ck ri el; simp [microRetryGo]
  | succ n ih =>
    intro rc ck ri el
    rw [microRetryGo]
    split
    · have := ih (rc + 1) (ck + 1) (ri + 1) (el + 150 + 100)
      omega
    · simp; omega

/-! ### Helper lemmas about the median selection -/

lemma median3_eq_max_min (x y z : Int) :
    median3 x y z = max (min x y) (min (max x y) z) := by
  unfold median3
  by_cases hxy : x ≤ y <;> by_cases hyz : y ≤ z <;> by_cases hxz : x ≤ z <;>
    simp [List.insertionSort, List.orderedInsert, hxy, hyz, hxz, List.getD] <;> omega

lemma median3_mem (x y z : Int) :
    median3 x y z = x ∨ median3 x y z = y ∨ median3 x y z = z := by
  rw [median3_eq_max_min]
  omega

/-! ### Claim C1 -/

/-- C1 counterexample.  The claim says an offset correction produced by the
15-second drift re-probe is adopted and applied to the next remaining-time
computation.  In the concrete iteration `probeEnv` from state `probeState`
the probe fires and produces the sample `time = 50500` at local time 50000
— an implied offset of +500 ms — yet the same iteration computes
`msUntilSubmit = 50100 = (100000 + 100 + 0) - (50000 + 0)`, using the stale
NTP offset 0, not `49600 = (100000 + 100) - (50000 + 500)`: the probe's
correction is never applied. -/
theorem c1_counterexample :
    (driftStep (heartbeatStep probeState probeEnv) probeEnv).lastSyncTime =
      { time := 50500, rtt := some 0, method := "southwest+ntp" } ∧
    (loopIter probeCfg probeState probeEnv).remainingMs = some 50100 ∧
    (50100 : Int) = 100000 + 100 - (50000 + 0) ∧
    (50100 : Int) ≠ 100000 + 100 - (50000 + 500) := by
  refine ⟨?_, by decide, by norm_num, by norm_num⟩
  simp [driftStep, heartbeatStep, getSouthwestTimeWithRTT, probeState, probeEnv]

/-- C1 (amended): in every iteration of the wait loop the offset used by the
remaining-time computation of line 307 is `localDriftMs`, the offset of the
most recently completed NTP synchronization; the 15-second drift re-probe
leaves `localDriftMs` unchanged (it only replaces the monitoring baseline
`lastSyncTime` and appends telemetry), so its correction is not applied to
the remaining-time computation; and the state carried into ARMED still holds
that same offset, so no probe correction is applied after arming. -/
theorem c1_offset_usage (cfg : RunConfig) (s : LoopState) (env : IterEnv) :
    (driftStep (heartbeatStep s env) env).localDriftMs = s.localDriftMs ∧
    (env.nowNTP - s.lastNTPSync < 600000 →
      (loopIter cfg s env).remainingMs =
        some (targetSubmitTime cfg - (env.nowCompute + s.localDriftMs))) ∧
    (∀ s' m, loopIter cfg s env = .armed s' m → s'.localDriftMs = s.localDriftMs) := by
  refine ⟨by rw [driftStep_localDriftMs, heartbeatStep_localDriftMs], ?_, ?_⟩
  · intro h
    rw [loopIter_of_noNTPBlock cfg s env h]
    have e : remainingAt cfg s env =
        targetSubmitTime cfg - (env.nowCompute + s.localDriftMs) := by
      simp [remainingAt, targetSubmitTime]
    split <;> simp [IterOutcome.remainingMs, e]
  · intro s' m h
    obtain ⟨-, -, e⟩ := loopIter_armed_remaining cfg s env s' m h
    rw [e, driftStep_localDriftMs, heartbeatStep_localDriftMs]

/-- C1 witness: the amended theorem applied to the concrete probe iteration;
the remaining time evaluates to `50100`, computed from the NTP offset 0. -/
theorem c1_witness :
    (loopIter probeCfg probeState probeEnv).remainingMs = some 50100 := by
  have h := (c1_offset_usage probeCfg probeState probeEnv).2.1 (by decide)
  simpa [probeCfg, probeState, probeEnv, targetSubmitTime, backupOffset] using h

/-! ### Claim C2 -/

/-- C2: the scheduler leaves the waiting states exactly when the recomputed
remaining time first becomes `≤ 0`.  An iteration arms iff
`targetSubmitTime - (localNow + localDriftMs) ≤ 0`; every iteration that
keeps waiting had remaining `> 0`; an armed run is a prefix of keep-waiting
iterations followed by the first arming iteration; the armed state's offset
equals the offset the arming iteration used (frozen at arming); and the
dispatch delay handed to the click scheduler is
`max(0, targetSubmitTime - (localNow + localDriftMs))` with
`targetSubmitTime = checkinOpensAtMs + 100 + backupOffset`, a constant no
later synchronization result can change. -/
theorem c2_armed_transition (cfg : RunConfig) :
    (∀ (s : LoopState) (env : IterEnv), env.nowNTP - s.lastNTPSync < 600000 →
        ((loopIter cfg s env).isArmed = true ↔
          targetSubmitTime cfg - (env.nowCompute + s.localDriftMs) ≤ 0)) ∧
    (∀ (s : LoopState) (env : IterEnv) (s' : LoopState) (m p : Int),
        loopIter cfg s env = .keepWaiting s' m p → 0 < m) ∧
    (∀ (s : LoopState) (env : IterEnv) (s' : LoopState) (m : Int),
        loopIter cfg s env = .armed s' m →
          m ≤ 0 ∧ m = targetSubmitTime cfg - (env.nowCompute + s.localDriftMs) ∧
          s'.localDriftMs = s.localDriftMs) ∧
    (∀ (s : LoopState) (envs : List IterEnv) (s' : LoopState) (m : Int),
        runLoop cfg s envs = .armed s' m →
          ∃ pre env post t, envs = pre ++ env :: post ∧
            runKeepWaiting cfg s pre = some t ∧ loopIter cfg t env = .armed s' m) ∧
    (∀ (nowMs driftMs : Int) (o0 o1 o2 : FetchOutcome) (r : DispatchComputation),
        phase3Dispatch cfg nowMs driftMs o0 o1 o2 = Except.ok r →
          r.delayMs = max 0 (targetSubmitTime cfg - (nowMs + driftMs)) ∧
          r.targetSubmitTime = targetSubmitTime cfg) := by
  have eRem : ∀ (s : LoopState) (env : IterEnv), remainingAt cfg s env =
      targetSubmitTime cfg - (env.nowCompute + s.localDriftMs) := by
    intro s env; simp [remainingAt, targetSubmitTime]
  refine ⟨?_, ?_, ?_, ?_, ?_⟩
  · intro s env h
    rw [loopIter_of_noNTPBlock cfg s env h, ← eRem s env]
    constructor
    · intro ha
      by_contra hc
      rw [if_neg hc] at ha
      simp [IterOutcome.isArmed] at ha
    · intro hc
      rw [if_pos hc]
      rfl
  · intro s env s' m p h
    exact (loopIter_keepWaiting_remaining cfg s env s' m p h).2.1
  · intro s env s' m h
    obtain ⟨e1, e2, e3⟩ := loopIter_armed_remaining cfg s env s' m h
    exact ⟨e2, by rw [e1, eRem],
      by rw [e3, driftStep_localDriftMs, heartbeatStep_localDriftMs]⟩
  · intro s envs s' m h
    exact runLoop_armed_split cfg envs s s' m h
  · intro nowMs driftMs o0 o1 o2 r h
    unfold phase3Dispatch at h
    cases hc : calibrateRTT o0 o1 o2 with
    | error msg => rw [hc] at h; exact absurd h (by simp)
    | ok calib =>
      rw [hc] at h
      dsimp only at h
      injection h with e
      rw [← e]
      exact ⟨rfl, rfl⟩

/-- C2 witness: in the concrete iteration `armEnv` from `armState` under a
run whose target submit time 1100 is already past local time 2000, the loop
arms. -/
theorem c2_witness :
    (loopIter { checkinOpensAtMs := 1000, isBackup := false } armState armEnv).isArmed =
      true :=
  ((c2_armed_transition { checkinOpensAtMs := 1000, isBackup := false }).1 armState armEnv
    (by decide)).mpr (by decide)

/-! ### Claim C7 -/

/-- C7: the claim is right and the code is wrong.  Whenever a wait reaches
the 10-minute NTP re-sync cadence (`Date.now() - lastNTPSync ≥ 600000`,
line 294), the iteration throws instead of completing: line 297 assigns to
`localDriftMs`, which line 134 declared as a `const` binding, and in
strict-mode module code that assignment raises
`TypeError: Assignment to constant variable.` — the offset is never updated
and the wait loop is aborted by the exception. -/
theorem c7_ntp_resync_throws (cfg : RunConfig) (s : LoopState) (env : IterEnv)
    (h : 600000 ≤ env.nowNTP - s.lastNTPSync) :
    loopIter cfg s env = .jsError "TypeError: Assignment to constant variable." :=
  loopIter_of_NTPBlock cfg s env h

/-- C7 witness: a concrete iteration ten minutes after the last NTP sync
throws. -/
theorem c7_witness :
    loopIter { checkinOpensAtMs := 100000000, isBackup := false } longWaitState
        longWaitEnv =
      .jsError "TypeError: Assignment to constant variable." :=
  c7_ntp_resync_throws { checkinOpensAtMs := 100000000, isBackup := false }
    longWaitState longWaitEnv (by decide)

/-! ### Claim C3 -/

/-- C3: the PHASE 4 loop performs at most `maxRetries = 5` re-dispatch
attempts, the recorded `retryCount` never exceeds 5, a non-rejected
response exits the loop immediately (first read non-rejected: one 150 ms
poll, zero re-dispatches), and the loop terminates within
`maxRetries * retryIntervalMs` of the first rejection, where
`retryIntervalMs = 250` is the loop's fixed per-retry cycle (150 ms poll
wait + 100 ms post-click wait).  The all-rejected run is evaluated exactly:
5 retries, 5 clicks, 1250 ms in waits, exhaustion. -/
theorem c3_retry_bounds (rejected : Nat → Bool) :
    (microRetry rejected).retryCount ≤ maxRetries ∧
    (microRetry rejected).clicks = (microRetry rejected).retryCount ∧
    (rejected 0 = false →
      microRetry rejected =
        { retryCount := 0, clicks := 0, elapsedMs := 150, accepted := true }) ∧
    (rejected 0 = true →
      (microRetry rejected).elapsedMs ≤ 150 + maxRetries * retryIntervalMs) ∧
    microRetry (fun _ => true) =
      { retryCount := 5, clicks := 5, elapsedMs := 1250, accepted := false } := by
  refine ⟨?_, ?_, ?_, ?_, by decide⟩
  · have h := microRetryGo_retryCount_le rejected maxRetries 0 0 0 0
    simpa [microRetry] using h
  · have h := microRetryGo_clicks_retryCount rejected maxRetries 0 0 0 0
    simpa [microRetry] using h
  · intro h
    simp [microRetry, maxRetries, microRetryGo, h]
  · intro _
    have h := microRetryGo_elapsed_le rejected maxRetries 0 0 0 0
    simp [microRetry, maxRetries, retryIntervalMs] at h ⊢
    omega

/-- C3 witness: with no rejection the loop exits immediately after the
first 150 ms poll, with zero re-dispatches. -/
theorem c3_witness :
    microRetry (fun _ => false) =
      { retryCount := 0, clicks := 0, elapsedMs := 150, accepted := true } :=
  (c3_retry_bounds (fun _ => false)).2.2.1 rfl

/-! ### Claim C4 -/

/-- C4 counterexample.  Two parts of the claim fail on the code.
First, `medianRTT` is not invariant under replacing an arbitrary single
sample by a 10x outlier: samples `[10, 20, 30]` give median 20, but
replacing the middle sample 20 by 300 (ten times the largest sample) gives
`[10, 300, 30]` with median 30, not 20.  Second, slow/failed samples are
not discarded when at least one sample succeeds: a failed fetch makes the
whole calibration abort with the error instead of computing the median of
the successful samples. -/
theorem c4_counterexample :
    calibrateRTT (.ok 10) (.ok 20) (.ok 30) =
      Except.ok { rttSamples := [10, 20, 30], medianRTT := 20, adaptiveOffset := 10 } ∧
    calibrateRTT (.ok 10) (.ok 300) (.ok 30) =
      Except.ok { rttSamples := [10, 300, 30], medianRTT := 30, adaptiveOffset := 15 } ∧
    (300 : Int) = 10 * 30 ∧ (30 : Int) ≠ 20 ∧
    calibrateRTT (.ok 10) (.fail "fetch failed") (.ok 30) = .error "fetch failed" := by
  exact ⟨rfl, rfl, by norm_num, by norm_num, rfl⟩

/-- C4 (amended): when all three calibration samples succeed, the returned
median is the middle element of the sorted raw samples and hence an element
of the raw sample list; the median never becomes an outlier: if one sample
dominates the other two, the median is their maximum (one of the genuine
samples), in whichever argument position the outlier sits, and it is
unchanged when the largest sample is replaced by a still-larger outlier;
a failed sample is not discarded — it aborts the calibration with its
error. -/
theorem c4_median_robustness :
    (∀ r0 r1 r2 : Int, ∀ c : CalibrationResult,
        calibrateRTT (.ok r0) (.ok r1) (.ok r2) = Except.ok c →
          c.rttSamples = [r0, r1, r2] ∧ c.medianRTT = median3 r0 r1 r2 ∧
          c.medianRTT ∈ c.rttSamples) ∧
    (∀ a b M : Int, a ≤ M → b ≤ M →
        median3 a b M = max a b ∧ median3 a M b = max a b ∧
        median3 M a b = max a b) ∧
    (∀ a b c M : Int, a ≤ c → b ≤ c → c ≤ M → median3 a b M = median3 a b c) ∧
    (∀ a b M : Int, a < M → b < M → median3 a b M ≠ M) ∧
    (∀ (msg : String) (o1 o2 : FetchOutcome) (r0 r1 : Int),
        calibrateRTT (.fail msg) o1 o2 = .error msg ∧
        calibrateRTT (.ok r0) (.fail msg) o2 = .error msg ∧
        calibrateRTT (.ok r0) (.ok r1) (.fail msg) = .error msg) := by
  refine ⟨?_, ?_, ?_, ?_, ?_⟩
  · intro r0 r1 r2 c h
    unfold calibrateRTT at h
    dsimp only at h
    injection h with e
    obtain ⟨hs, hm⟩ : c.rttSamples = [r0, r1, r2] ∧ c.medianRTT = median3 r0 r1 r2 := by
      rw [← e]
      exact ⟨rfl, by simp [median3]⟩
    refine ⟨hs, hm, ?_⟩
    rw [hs, hm]
    rcases median3_mem r0 r1 r2 with h | h | h <;> simp [h]
  · intro a b M ha hb
    refine ⟨?_, ?_, ?_⟩ <;> rw [median3_eq_max_min] <;> omega
  · intro a b c M ha hb hc
    rw [median3_eq_max_min, median3_eq_max_min]
    omega
  · intro a b M ha hb
    rw [median3_eq_max_min]
    omega
  · intro msg o1 o2 r0 r1
    exact ⟨rfl, rfl, rfl⟩

/-- C4 witness: the amended theorem applied to a sample triple with a
dominating outlier: the median of `3, 4, 40` is `4`, the larger of the two
genuine samples. -/
theorem c4_witness : median3 3 4 40 = 4 := by
  have h := (c4_median_robustness.2.1 3 4 40 (by norm_num) (by norm_num)).1
  simpa using h

/-! ### Claim C5 -/

/-- C5: a backup-role run and an otherwise identical primary-role run with
the same `checkinOpensAtMs` compute target submit times exactly 1000 ms
apart (`backupOffset` is the constant 1000 for backup, 0 for primary, fixed
for the whole run by line 42); and when the dispatch computation happens
before the primary's target time, the scheduled fire instants
`(localNow + drift) + delayMs` of the two runs also differ by exactly
1000 ms, the backup firing later. -/
theorem c5_role_offset (checkin nowMs driftMs : Int) :
    backupOffset true = 1000 ∧ backupOffset false = 0 ∧ 0 < backupOffset true ∧
    targetSubmitTime { checkinOpensAtMs := checkin, isBackup := true } -
      targetSubmitTime { checkinOpensAtMs := checkin, isBackup := false } = 1000 ∧
    (nowMs + driftMs ≤ targetSubmitTime { checkinOpensAtMs := checkin, isBackup := false } →
      ((nowMs + driftMs) +
          max 0 (targetSubmitTime { checkinOpensAtMs := checkin, isBackup := true } -
            (nowMs + driftMs))) -
        ((nowMs + driftMs) +
          max 0 (targetSubmitTime { checkinOpensAtMs := checkin, isBackup := false } -
            (nowMs + driftMs))) = 1000) := by
  refine ⟨rfl, rfl, by norm_num [backupOffset], ?_, ?_⟩
  · simp only [targetSubmitTime, backupOffset]
    norm_num
  · intro h
    simp only [targetSubmitTime, backupOffset] at h ⊢
    norm_num at h ⊢
    omega

/-- C5 witness: with check-in opening at 1000000 and the dispatch
computation at synced time 999000, the backup fire instant is exactly
1000 ms after the primary one. -/
theorem c5_witness :
    ((999000 + 0 : Int) +
        max 0 (targetSubmitTime { checkinOpensAtMs := 1000000, isBackup := true } -
          (999000 + 0))) -
      ((999000 + 0) +
        max 0 (targetSubmitTime { checkinOpensAtMs := 1000000, isBackup := false } -
          (999000 + 0))) = 1000 :=
  (c5_role_offset 1000000 999000 0).2.2.2.2 (by decide)

/-! ### Claim C6 -/

/-- C6 counterexample.  The claim says that on failure of the primary NTP
reference the returned sample's offset equals the last known-good value,
falling back to 0 only on total failure.  In the code `getNTPTime` has no
access to any previous offset: after a successful sync established the
known-good offset 500, a later failed sync returns offset 0, not 500. -/
theorem c6_counterexample :
    (getNTPTime (.ok 100500 100000)).localDriftMs = 500 ∧
    (getNTPTime (.err 200000)).localDriftMs = 0 ∧
    (0 : Int) ≠ 500 := by
  exact ⟨by decide, rfl, by norm_num⟩

/-- C6 (amended): neither synchronization function raises — both are total
and return a sample on every outcome.  On NTP failure `getNTPTime` returns
offset 0 (regardless of any earlier known-good value) and marks the source
degraded (`succeeded = false`).  `getSouthwestTimeWithRTT` on failure of
its HTTP reference falls back to the NTP-corrected local time, retaining
the caller's last NTP offset, and its recorded `method` reflects the
strategy actually used: `southwest+ntp` on success, `ntp-only` on any
fallback. -/
theorem c6_sync_fallback :
    (∀ nowMs : Int, getNTPTime (.err nowMs) =
        { ntpTime := nowMs, localDriftMs := 0, succeeded := false }) ∧
    (∀ ntpMs nowMs : Int, getNTPTime (.ok ntpMs nowMs) =
        { ntpTime := ntpMs, localDriftMs := ntpMs - nowMs, succeeded := true }) ∧
    (∀ drift nowMs : Int, getSouthwestTimeWithRTT drift (.fail nowMs) =
        { time := ((nowMs + drift : Int) : ℚ), rtt := none, method := "ntp-only" }) ∧
    (∀ drift a b c : Int, (getSouthwestTimeWithRTT drift (.noHeader a b c)).method =
        "ntp-only") ∧
    (∀ drift a b c : Int, (getSouthwestTimeWithRTT drift (.ok a b c)).method =
        "southwest+ntp") ∧
    (∀ (drift : Int) (env : SWEnv),
        (getSouthwestTimeWithRTT drift env).method = "southwest+ntp" ∨
        (getSouthwestTimeWithRTT drift env).method = "ntp-only") := by
  refine ⟨fun _ => rfl, fun _ _ => rfl, fun _ _ => rfl, fun _ _ _ _ => rfl,
    fun _ _ _ _ => rfl, ?_⟩
  intro drift env
  cases env with
  | ok a b c => exact Or.inl rfl
  | noHeader a b c => exact Or.inr rfl
  | fail a => exact Or.inr rfl

/-! ### Claim C8 -/

/-- C8: the scheduled submit time is independent of the pre-submit latency
calibration.  Two dispatch computations identical in everything but the
three measured RTT samples produce the same `targetSubmitTime` and the same
`delayMs`: the adaptive half-RTT compensation is recorded in the
calibration output only, never added to the schedule. -/
theorem c8_latency_independent (cfg : RunConfig) (nowMs driftMs : Int)
    (o0 o1 o2 p0 p1 p2 : FetchOutcome) (r r' : DispatchComputation)
    (h : phase3Dispatch cfg nowMs driftMs o0 o1 o2 = Except.ok r)
    (h' : phase3Dispatch cfg nowMs driftMs p0 p1 p2 = Except.ok r') :
    r.targetSubmitTime = r'.targetSubmitTime ∧ r.delayMs = r'.delayMs := by
  unfold phase3Dispatch at h h'
  cases hc : calibrateRTT o0 o1 o2 with
  | error m => rw [hc] at h; exact absurd h (by simp)
  | ok calib =>
    rw [hc] at h
    cases hc' : calibrateRTT p0 p1 p2 with
    | error m => rw [hc'] at h'; exact absurd h' (by simp)
    | ok calib' =>
      rw [hc'] at h'
      dsimp only at h h'
      injection h with e
      injection h' with e'
      rw [← e, ← e']
      exact ⟨rfl, rfl⟩

/-- C8 witness: two concrete calibrations with very different samples
(medians 20 and 900) yield the identical target submit time 5100 and
dispatch delay 4100. -/
theorem c8_witness :
    phase3Dispatch { checkinOpensAtMs := 5000, isBackup := false } 1000 0
        (.ok 10) (.ok 20) (.ok 30) =
      Except.ok { targetSubmitTime := 5100, delayMs := 4100,
                  calibration := { rttSamples := [10, 20, 30], medianRTT := 20,
                                   adaptiveOffset := 10 } } ∧
    phase3Dispatch { checkinOpensAtMs := 5000, isBackup := false } 1000 0
        (.ok 800) (.ok 900) (.ok 1000) =
      Except.ok { targetSubmitTime := 5100, delayMs := 4100,
                  calibration := { rttSamples := [800, 900, 1000], medianRTT := 900,
                                   adaptiveOffset := 450 } } ∧
    (5100 : Int) = 5100 ∧ (4100 : Int) = 4100 := by
  have h := c8_latency_independent { checkinOpensAtMs := 5000, isBackup := false }
    1000 0 (.ok 10) (.ok 20) (.ok 30) (.ok 800) (.ok 900) (.ok 1000)
    { targetSubmitTime := 5100, delayMs := 4100,
      calibration := { rttSamples := [10, 20, 30], medianRTT := 20, adaptiveOffset := 10 } }
    { targetSubmitTime := 5100, delayMs := 4100,
      calibration := { rttSamples := [800, 900, 1000], medianRTT := 900,
                       adaptiveOffset := 450 } }
    rfl rfl
  exact ⟨rfl, rfl, h.1, h.2⟩

/-! ### Claim C9 -/

/-- C9 counterexample.  The claim says the 5-second bucket polls every 1 s
and the 1-second bucket every 100 ms.  At `msUntilSubmit = 3000` — inside
the 5-second bucket, outside the 1-second bucket — the code polls every
100 ms, not every 1 s. -/
theorem c9_counterexample :
    pollIntervalMs 3000 = 100 ∧ (100 : Int) ≠ 1000 := by
  exact ⟨rfl, by norm_num⟩

/-- C9 (amended): the poll interval is a function of the remaining time
given by fixed buckets, but the buckets are: remaining `≤ 5 s` → poll
100 ms, `5 s < remaining ≤ 60 s` → poll 1 s, `remaining > 60 s` → poll 5 s.
The interval is always between 100 ms and 5000 ms (wake-ups bounded,
precision finest near the deadline), and every keep-waiting iteration of
the wait loop sleeps exactly `pollIntervalMs` of its remaining time. -/
theorem c9_poll_buckets :
    (∀ r : Int, r ≤ 5000 → pollIntervalMs r = 100) ∧
    (∀ r : Int, 5000 < r → r ≤ 60000 → pollIntervalMs r = 1000) ∧
    (∀ r : Int, 60000 < r → pollIntervalMs r = 5000) ∧
    (∀ r : Int, 100 ≤ pollIntervalMs r ∧ pollIntervalMs r ≤ 5000) ∧
    (∀ (cfg : RunConfig) (s : LoopState) (env : IterEnv) (s' : LoopState) (m p : Int),
        loopIter cfg s env = .keepWaiting s' m p → p = pollIntervalMs m) := by
  refine ⟨?_, ?_, ?_, ?_, ?_⟩
  · intro r h; unfold pollIntervalMs; rw [if_pos h]
  · intro r h1 h2; unfold pollIntervalMs; rw [if_neg (by omega), if_pos h2]
  · intro r h; unfold pollIntervalMs; rw [if_neg (by omega), if_neg (by omega)]
  · intro r
    unfold pollIntervalMs
    split
    · omega
    · split <;> omega
  · intro cfg s env s' m p h
    exact (loopIter_keepWaiting_remaining cfg s env s' m p h).2.2.1

/-- C9 witness: at 800 ms remaining (the 1-second bucket) the poll interval
is 100 ms, as the claim also says for that bucket. -/
theorem c9_witness : pollIntervalMs 800 = 100 :=
  c9_poll_buckets.1 800 (by norm_num)

/-! ### Claim C10 -/

/-- C10: the claim is right about the form-filling stage but the code is
wrong at the scheduled-click dispatch stage.  With only 2 inputs found the
form-fill throw is caught and surfaced: `success = false` and `error` set.
But when the submit button is missing at dispatch, the in-browser promise
resolves `{ error: 'Button not found' }` (second conjunct), the Node side
discards that value, and the run continues through phases 4-5: with a
parseable final page it finishes with `success = true` and `error = null` —
the ActionTargetMissing is never surfaced (third conjunct), contradicting
the claim that it is fatal at the dispatch stage as well. -/
theorem c10_button_missing_not_fatal :
    runWithDispatchStage 2 true 0 none false =
      { success := false, boardingPosition := none,
        error := some "Expected 3 inputs, found 2" } ∧
    scheduleClick false 500 = .buttonNotFound ∧
    runWithDispatchStage 3 false 500 (some "A24") false =
      { success := true, boardingPosition := some "A24", error := none } := by
  exact ⟨rfl, rfl, rfl⟩

end SWActor
